import Mathlib

/-!
Verification of the image compositing + template-positioning subsystem of the
`ai-personalization-prototype` repository (`lib/image-compositor.ts`).

The compositor is shallowly embedded: images are pixel grids with rational
RGBA channels in [0,1]; the sharp library's documented behaviour for
`resize(..., { fit: 'cover', position: 'center' })`, `composite([{blend:'over'}])`
and format handling (output format = input format unless `.png()` is called)
is modelled by explicit functions; the compositor's collaborators
(`fs.access`, `fetch`, `fs.readFile`, `fs.readdir`) are an explicit
environment, and the operation additionally returns the trace of the
effects it performed, in order. Base64/data-URI encoding is modelled as a
structural wrapper (base64 is a bijection on byte strings), so the "decoded
image" of a result is directly available.
-/

/-- RGBA pixel with rational channels, normalised to the interval [0,1]. -/
structure Pixel where
  r : ℚ
  g : ℚ
  b : ℚ
  a : ℚ
deriving DecidableEq

/-- A decoded raster image: dimensions plus a pixel function (row-major,
top-left origin, as in sharp). -/
@[ext] structure Image where
  width : Nat
  height : Nat
  pixel : Nat → Nat → Pixel

/-- Encoded image formats relevant to the compositor. -/
inductive ImgFormat
  | png
  | jpeg
  | webp
deriving DecidableEq

/-- An encoded image buffer: its container format plus the image it decodes
to.  Models a Node `Buffer` holding valid image bytes. -/
structure Buffer where
  format : ImgFormat
  image : Image

/-- Raw bytes obtained from a collaborator: either a valid encoded image or
bytes sharp cannot decode (sharp throws an error carrying a message). -/
inductive Bytes
  | valid (buf : Buffer)
  | corrupt (msg : String)

/-- Outcome of `fetch(url)` as used by `downloadImage`: a response with a
body, a non-ok response (carrying `statusText`), or a rejected promise
(network error carrying a message). -/
inductive FetchOutcome
  | ok (bytes : Bytes)
  | httpError (statusText : String)
  | netError (msg : String)

/-- `facePosition` rectangle of `TemplateConfig` (template coordinate space,
top-left origin), from `lib/image-compositor.ts`. -/
structure FacePosition where
  x : Nat
  y : Nat
  width : Nat
  height : Nat
deriving DecidableEq

/-- `TemplateConfig` from `lib/image-compositor.ts`. -/
structure TemplateConfig where
  name : String
  facePosition : FacePosition
deriving DecidableEq

/-- The static Registry: the `TEMPLATES` record from
`lib/image-compositor.ts`, as an association list (a TypeScript `Record`
literal with its two own keys). -/
def TEMPLATES : List (String × TemplateConfig) :=
  [("template1",
    { name := "template1",
      facePosition := { x := 300, y := 150, width := 400, height := 400 } }),
   ("template2",
    { name := "template2",
      facePosition := { x := 250, y := 100, width := 500, height := 500 } })]

/-- Own property names of JavaScript `Object.prototype`: reading any of
these off a plain object literal walks the prototype chain and yields a
truthy inherited value (a function, or `Object.prototype` itself for
`__proto__`), not `undefined`. -/
def protoNames : List String :=
  ["constructor", "hasOwnProperty", "isPrototypeOf", "propertyIsEnumerable",
   "toLocaleString", "toString", "valueOf", "__defineGetter__",
   "__defineSetter__", "__lookupGetter__", "__lookupSetter__", "__proto__"]

/-- Result of the JavaScript property read `TEMPLATES[templateName]` on the
Registry object literal: an own key yields its config; an `Object.prototype`
member name yields a truthy inherited value that has no `facePosition`
property; any other name yields `undefined` — the only falsy outcome, hence
the only one that makes `if (!templateConfig)` throw. -/
inductive JsProp
  | config (cfg : TemplateConfig)
  | inherited
  | undef
deriving DecidableEq

/-- `TEMPLATES[templateName]`: the JavaScript property lookup on the
Registry, including the prototype chain of the object literal. -/
def registryLookup (n : String) : JsProp :=
  match TEMPLATES.lookup n with
  | some cfg => JsProp.config cfg
  | none => if n ∈ protoNames then JsProp.inherited else JsProp.undef

/-- `options.templateName || 'template1'`: JavaScript `||` takes the default
both when `templateName` is absent (`undefined`) and when it is the empty
string (falsy). -/
def defaultName : Option String → String
  | none => "template1"
  | some s => if s = "" then "template1" else s

/-- Uniform scale factor chosen by sharp for `fit: 'cover'`: the larger of
the two target/source ratios, so the scaled image covers the target. -/
def coverScale (sw sh tw th : Nat) : ℚ :=
  max ((tw : ℚ) / (sw : ℚ)) ((th : ℚ) / (sh : ℚ))

/-- Width, in source pixels, of the region that survives the centred crop of
a cover-fit resize. -/
def cropSrcWidth (sw sh tw th : Nat) : ℚ :=
  (tw : ℚ) / coverScale sw sh tw th

/-- Height, in source pixels, of the region that survives the centred crop. -/
def cropSrcHeight (sw sh tw th : Nat) : ℚ :=
  (th : ℚ) / coverScale sw sh tw th

/-- Left edge, in source pixels, of the centred crop region
(`position: 'center'`): the cropped-away margin is split evenly. -/
def cropSrcLeft (sw sh tw th : Nat) : ℚ :=
  ((sw : ℚ) - cropSrcWidth sw sh tw th) / 2

/-- Top edge, in source pixels, of the centred crop region. -/
def cropSrcTop (sw sh tw th : Nat) : ℚ :=
  ((sh : ℚ) - cropSrcHeight sw sh tw th) / 2

/-- `sharp(b).resize(tw, th, { fit: 'cover', position: 'center' })` on the
decoded image: scale uniformly by `coverScale`, crop to exactly `tw × th`
centred on the scaled image's centre.  Pixel resampling is modelled as
nearest-neighbour sampling on that exact geometry (the geometric contract is
independent of the resampling kernel); sample indices are clamped to the
source bounds. -/
def resizeCoverCenter (img : Image) (tw th : Nat) : Image :=
  { width := tw
    height := th
    pixel := fun i j =>
      let s := coverScale img.width img.height tw th
      let sx := Int.toNat ⌊cropSrcLeft img.width img.height tw th + ((i : ℚ) + 1/2) / s⌋
      let sy := Int.toNat ⌊cropSrcTop img.width img.height tw th + ((j : ℚ) + 1/2) / s⌋
      img.pixel (min sx (img.width - 1)) (min sy (img.height - 1)) }

/-- Source-over alpha blending of pixel `s` on top of pixel `d`, in
normalised non-premultiplied channels — the `blend: 'over'` operator used by
sharp's `composite`. -/
def pixelOver (s d : Pixel) : Pixel :=
  let a : ℚ := s.a + d.a * (1 - s.a)
  if a = 0 then { r := 0, g := 0, b := 0, a := 0 }
  else
    { r := (s.r * s.a + d.r * d.a * (1 - s.a)) / a
      g := (s.g * s.a + d.g * d.a * (1 - s.a)) / a
      b := (s.b * s.a + d.b * d.a * (1 - s.a)) / a
      a := a }

/-- `sharp(base).composite([{ input: overlay, top, left, blend: 'over' }])`:
the canvas keeps the base image's dimensions; inside the overlay rectangle
pixels are source-over blended, outside they are the base's pixels.  Overlay
regions falling outside the base canvas are clipped (the spec leaves
out-of-bounds slots library-dependent; no theorem below depends on the
out-of-bounds case). -/
def compositeOver (base overlay : Image) (left top : Nat) : Image :=
  { width := base.width
    height := base.height
    pixel := fun i j =>
      if left ≤ i ∧ i < left + overlay.width ∧ top ≤ j ∧ j < top + overlay.height then
        pixelOver (overlay.pixel (i - left) (j - top)) (base.pixel i j)
      else
        base.pixel i j }

/-- `sharp(bytes).resize(w, h, { fit: 'cover', position: 'center' }).toBuffer()`:
decodes, resizes, re-encodes.  No output format is selected, so sharp keeps
the input format.  Undecodable bytes make sharp throw. -/
def sharpResizeToBuffer (b : Bytes) (w h : Nat) : Except String Buffer :=
  match b with
  | .valid buf => .ok { format := buf.format, image := resizeCoverCenter buf.image w h }
  | .corrupt m => .error m

/-- `sharp(tmplBytes).composite([{input, top, left, blend:'over'}]).png().toBuffer()`:
decodes the template, overlays the (already decoded) face buffer, and
re-encodes as PNG (`.png()` is called on this path).  An undecodable
template makes sharp throw. -/
def sharpCompositePng (tmpl : Bytes) (face : Buffer) (left top : Nat) :
    Except String Buffer :=
  match tmpl with
  | .valid t => .ok { format := ImgFormat.png
                      image := compositeOver t.image face.image left top }
  | .corrupt m => .error m

/-- The compositor's collaborators (spec §6), keyed by template name where
the code uses the path `public/templates/<name>.png` (`path.join` applied to
a fixed directory is injective in the name):
`access` is `fs.access` on the template's path, `fetch` the network fetch,
`readFile` is `fs.readFile` on the template's path, `listDir` is
`fs.readdir` on the templates directory (`none` models the readdir call
throwing). -/
structure Env where
  access : String → Except String Unit
  fetch : String → FetchOutcome
  readFile : String → Except String Bytes
  listDir : Option (List String)

/-- One observable step performed by the compositor, for fail-fast /
no-retry statements. -/
inductive Effect
  | accessCheck (name : String)
  | fetchUrl (url : String)
  | resizeOp (w h : Nat)
  | readFileOp (name : String)
  | compositeOp (left top : Nat)
deriving DecidableEq

/-- `CompositeOptions` from `lib/image-compositor.ts`; `templateName?` is an
optional field. -/
structure CompositeOptions where
  aiGeneratedImageUrl : String
  templateName : Option String

/-- A `data:<mime>;base64,<payload>` string, kept structurally (base64 is a
bijection on byte strings, so the payload is carried as the buffer itself). -/
structure DataUri where
  mime : String
  payload : Buffer

/-- `CompositeResult` from `lib/image-compositor.ts`: `base64Image = none`
models the empty string `''`, `some d` a non-empty data URI; `error` is the
optional error message. -/
structure CompositeResult where
  base64Image : Option DataUri
  error : Option String

/-- `downloadImage` from `lib/image-compositor.ts`: a non-ok response throws
`Failed to download image: <statusText>`; a rejected fetch is re-thrown
unchanged (the catch block logs and re-throws). -/
def downloadImage (env : Env) (url : String) : Except String Bytes :=
  match env.fetch url with
  | .ok b => .ok b
  | .httpError st => .error ("Failed to download image: " ++ st)
  | .netError m => .error m

/-- Fallback branch of `compositeOnTemplate` (`!templateExists`): resize the
downloaded AI image to the canonical 1024×1024 cover-fit square and return
it directly.  No `.png()` is invoked on this branch, so the buffer keeps the
source's input format. -/
def fallbackPath (aiBytes : Bytes) : Except String DataUri × List Effect :=
  match sharpResizeToBuffer aiBytes 1024 1024 with
  | .error e => (.error e, [Effect.resizeOp 1024 1024])
  | .ok resized => (.ok { mime := "image/png", payload := resized },
                    [Effect.resizeOp 1024 1024])

/-- Composite branch of `compositeOnTemplate` (`templateExists`): resize the
AI image to the face slot with cover/centre fit, read the template's bytes,
overlay with source-over blending at `(x, y)`, and encode the full canvas as
PNG. -/
def compositePath (env : Env) (name : String) (aiBytes : Bytes)
    (p : FacePosition) : Except String DataUri × List Effect :=
  match sharpResizeToBuffer aiBytes p.width p.height with
  | .error e => (.error e, [Effect.resizeOp p.width p.height])
  | .ok face =>
    match env.readFile name with
    | .error e => (.error e, [Effect.resizeOp p.width p.height,
                              Effect.readFileOp name])
    | .ok tmplBytes =>
      match sharpCompositePng tmplBytes face p.x p.y with
      | .error e => (.error e, [Effect.resizeOp p.width p.height,
                                Effect.readFileOp name,
                                Effect.compositeOp p.x p.y])
      | .ok outBuf => (.ok { mime := "image/png", payload := outBuf },
                       [Effect.resizeOp p.width p.height,
                        Effect.readFileOp name,
                        Effect.compositeOp p.x p.y])

/-- Message of the TypeError thrown by
`const { x, y, width, height } = templateConfig.facePosition` when
`templateConfig` is a truthy inherited `Object.prototype` member, whose
`facePosition` is `undefined`.  (Node's exact wording is version-dependent
and puts quote marks around the property names; they are elided here.) -/
def destructureMsg : String :=
  "Cannot destructure property x of templateConfig.facePosition as it is undefined"

/-- Body of `compositeOnTemplate` after a truthy registry read: the
`fs.access` existence probe whose failure is swallowed into
`templateExists = false`, the source download, then the fallback branch —
or, on the composite branch, the destructuring of
`templateConfig.facePosition` (`fp = none`, the inherited-member case,
throws a TypeError there) followed by the composite pipeline. -/
def compositeRunTruthy (env : Env) (url name : String) (fp : Option FacePosition) :
    Except String DataUri × List Effect :=
  let templateExists : Bool :=
    match env.access name with
    | .ok _ => true
    | .error _ => false
  match downloadImage env url with
  | .error e => (.error e, [Effect.accessCheck name, Effect.fetchUrl url])
  | .ok aiBytes =>
    if templateExists = false then
      let r := fallbackPath aiBytes
      (r.1, [Effect.accessCheck name, Effect.fetchUrl url] ++ r.2)
    else
      match fp with
      | none => (.error destructureMsg, [Effect.accessCheck name, Effect.fetchUrl url])
      | some p =>
        let r := compositePath env name aiBytes p
        (r.1, [Effect.accessCheck name, Effect.fetchUrl url] ++ r.2)

/-- Body of `compositeOnTemplate` for an already-defaulted template name:
the JavaScript registry read (throwing `Template <name> not found` only for
`undefined` — a truthy inherited `Object.prototype` member passes the
`!templateConfig` guard and proceeds with no `facePosition`), then the
probe/download/fallback-or-composite pipeline. -/
def compositeRun (env : Env) (url name : String) :
    Except String DataUri × List Effect :=
  match registryLookup name with
  | .undef => (.error ("Template " ++ name ++ " not found"), [])
  | .inherited => compositeRunTruthy env url name none
  | .config cfg => compositeRunTruthy env url name (some cfg.facePosition)

/-- `compositeOnTemplate` from `lib/image-compositor.ts`: default the
template name, run the pipeline, and translate at the boundary — a thrown
error becomes `{ base64Image: '', error: message }`, a produced data URI
becomes `{ base64Image: 'data:image/png;base64,...' }` with no error.  The
performed-effect trace is returned alongside. -/
def compositeOnTemplate (env : Env) (opts : CompositeOptions) :
    CompositeResult × List Effect :=
  match compositeRun env opts.aiGeneratedImageUrl (defaultName opts.templateName) with
  | (.ok d, tr) => ({ base64Image := some d, error := none }, tr)
  | (.error m, tr) => ({ base64Image := none, error := some m }, tr)

/-- The character pattern `'.png'` used by `getAvailableTemplates`. -/
def pngPat : List Char := ['.', 'p', 'n', 'g']

/-- JavaScript `file.endsWith('.png')` on the character list of `file`. -/
def endsWithPng (l : List Char) : Bool :=
  decide (l.drop (l.length - 4) = pngPat)

/-- JavaScript `file.replace('.png', '')`: remove the FIRST occurrence of
the pattern (not the suffix), scanning left to right. -/
def stripFirstPat (pat : List Char) : List Char → List Char
  | [] => []
  | c :: rest =>
    if (c :: rest).take pat.length = pat then (c :: rest).drop pat.length
    else c :: stripFirstPat pat rest

/-- Whether `pat` occurs as a contiguous sublist. -/
def containsPat (pat : List Char) : List Char → Bool
  | [] => pat.isEmpty
  | c :: rest => decide ((c :: rest).take pat.length = pat) || containsPat pat rest

/-- Modelled from the spec: the spec for `getAvailableTemplates` describes
the returned names as the `.png` files present "with the suffix stripped";
this is that suffix-stripping map, for comparison with the code's
first-occurrence `replace`. -/
def stripSuffixPng (l : List Char) : List Char :=
  if endsWithPng l then l.take (l.length - 4) else l

/-- `getAvailableTemplates` from `lib/image-compositor.ts`: `fs.readdir` on
the templates directory (any failure caught, returning `[]`), keep the
names ending in `.png`, and map each through `replace('.png', '')`. -/
def getAvailableTemplates (env : Env) : List String :=
  match env.listDir with
  | none => []
  | some files =>
    (files.filter fun f => endsWithPng f.toList).map
      fun f => (stripFirstPat pngPat f.toList).asString

/-- Conclusion of the cover/centre resize law for source `(sw, sh)` and
target `(tw, th)`: the resize output has exactly the target dimensions; the
chosen uniform scale is positive, fills the target in both axes and fits one
axis exactly; the source-space crop rectangle maps exactly onto the target
under the uniform scale (no aspect distortion, target fully filled); and the
cropped-away margins are symmetric about the centre in both axes. -/
def CoverLaw (sw sh tw th : Nat) : Prop :=
  0 < coverScale sw sh tw th ∧
  (∀ img : Image, (resizeCoverCenter img tw th).width = tw ∧
      (resizeCoverCenter img tw th).height = th) ∧
  (tw : ℚ) ≤ (sw : ℚ) * coverScale sw sh tw th ∧
  (th : ℚ) ≤ (sh : ℚ) * coverScale sw sh tw th ∧
  ((sw : ℚ) * coverScale sw sh tw th = tw ∨ (sh : ℚ) * coverScale sw sh tw th = th) ∧
  cropSrcWidth sw sh tw th * coverScale sw sh tw th = tw ∧
  cropSrcHeight sw sh tw th * coverScale sw sh tw th = th ∧
  cropSrcLeft sw sh tw th + cropSrcWidth sw sh tw th + cropSrcLeft sw sh tw th = sw ∧
  cropSrcTop sw sh tw th + cropSrcHeight sw sh tw th + cropSrcTop sw sh tw th = sh

/-- C5: for every positive source `(Sw, Sh)` and target `(Tw, Th)`, the
compositor's cover/centre resize scales uniformly by `max(Tw/Sw, Th/Sh)`,
fully fills the target without distorting aspect ratio, and crops
symmetrically about the centre. -/
theorem c5_cover_center_resize (sw sh tw th : Nat)
    (hsw : 0 < sw) (hsh : 0 < sh) (htw : 0 < tw) (hth : 0 < th) :
    CoverLaw sw sh tw th := by
  have hswQ : (0 : ℚ) < sw := by exact_mod_cast hsw
  have hshQ : (0 : ℚ) < sh := by exact_mod_cast hsh
  have htwQ : (0 : ℚ) < tw := by exact_mod_cast htw
  have hthQ : (0 : ℚ) < th := by exact_mod_cast hth
  have hs : 0 < coverScale sw sh tw th :=
    lt_of_lt_of_le (div_pos htwQ hswQ) (le_max_left _ _)
  refine ⟨hs, fun img => ⟨rfl, rfl⟩, ?_, ?_, ?_, ?_, ?_, ?_, ?_⟩
  · have h := le_max_left ((tw : ℚ) / sw) ((th : ℚ) / sh)
    rw [div_le_iff₀ hswQ] at h
    calc (tw : ℚ) ≤ coverScale sw sh tw th * sw := h
    _ = sw * coverScale sw sh tw th := mul_comm _ _
  · have h := le_max_right ((tw : ℚ) / sw) ((th : ℚ) / sh)
    rw [div_le_iff₀ hshQ] at h
    calc (th : ℚ) ≤ coverScale sw sh tw th * sh := h
    _ = sh * coverScale sw sh tw th := mul_comm _ _
  · rcases max_choice ((tw : ℚ) / sw) ((th : ℚ) / sh) with h | h
    · left
      rw [coverScale, h, mul_comm, div_mul_cancel₀ _ hswQ.ne']
    · right
      rw [coverScale, h, mul_comm, div_mul_cancel₀ _ hshQ.ne']
  · exact div_mul_cancel₀ _ hs.ne'
  · exact div_mul_cancel₀ _ hs.ne'
  · rw [cropSrcLeft]; ring
  · rw [cropSrcTop]; ring

/-- Witness for C5 at the spec's worked example: a 2000×1000 source resized
to a 400×400 target uses scale 2/5 and crops exactly the horizontal-centre
1000×1000 square of the source, `[500, 1500] × [0, 1000]`. -/
theorem c5_cover_center_resize_witness :
    (0 < 2000 ∧ 0 < 1000 ∧ 0 < 400) ∧
    CoverLaw 2000 1000 400 400 ∧
    coverScale 2000 1000 400 400 = 2/5 ∧
    cropSrcLeft 2000 1000 400 400 = 500 ∧
    cropSrcWidth 2000 1000 400 400 = 1000 ∧
    cropSrcTop 2000 1000 400 400 = 0 ∧
    cropSrcHeight 2000 1000 400 400 = 1000 :=
  ⟨by norm_num,
   c5_cover_center_resize 2000 1000 400 400 (by norm_num) (by norm_num)
     (by norm_num) (by norm_num),
   by norm_num [coverScale],
   by norm_num [cropSrcLeft, cropSrcWidth, coverScale],
   by norm_num [cropSrcWidth, coverScale],
   by norm_num [cropSrcTop, cropSrcHeight, coverScale],
   by norm_num [cropSrcHeight, coverScale]⟩

/-- C10 (amended): the static Registry object has exactly the two OWN
entries `template1` (face slot 300, 150, 400×400) and `template2` (face
slot 250, 100, 500×500); but `compositeOnTemplate`'s registry guard reads
`TEMPLATES[templateName]` through the prototype chain, so the truthiness
check passes for exactly these two names PLUS the inherited
`Object.prototype` member names, and fails for every other name. -/
theorem c10_registry_domain :
    (∀ n : String, (TEMPLATES.lookup n).isSome ↔ (n = "template1" ∨ n = "template2")) ∧
    TEMPLATES.lookup "template1" =
      some { name := "template1",
             facePosition := { x := 300, y := 150, width := 400, height := 400 } } ∧
    TEMPLATES.lookup "template2" =
      some { name := "template2",
             facePosition := { x := 250, y := 100, width := 500, height := 500 } } ∧
    (∀ n : String, registryLookup n ≠ JsProp.undef ↔
      (n = "template1" ∨ n = "template2" ∨ n ∈ protoNames)) := by
  have own : ∀ n : String, (TEMPLATES.lookup n).isSome ↔ (n = "template1" ∨ n = "template2") := by
    intro n
    by_cases h1 : n = "template1"
    · simp [TEMPLATES, List.lookup, h1]
    · by_cases h2 : n = "template2"
      · simp [TEMPLATES, List.lookup, h1, h2]
      · have b1 : (n == "template1") = false := by simp [h1]
        have b2 : (n == "template2") = false := by simp [h2]
        simp [TEMPLATES, List.lookup, b1, b2, h1, h2]
  refine ⟨own, rfl, rfl, ?_⟩
  intro n
  by_cases h1 : n = "template1"
  · simp [registryLookup, TEMPLATES, List.lookup, h1]
  · by_cases h2 : n = "template2"
    · simp [registryLookup, TEMPLATES, List.lookup, h1, h2]
    · have b1 : (n == "template1") = false := by simp [h1]
      have b2 : (n == "template2") = false := by simp [h2]
      by_cases hp : n ∈ protoNames
      · simp [registryLookup, TEMPLATES, List.lookup, b1, b2, h1, h2, hp]
      · simp [registryLookup, TEMPLATES, List.lookup, b1, b2, h1, h2, hp]

/-- C8: a request with `templateName` absent and a request with
`templateName = ""` each produce exactly the same result (and effect trace)
as a request with `templateName = "template1"`. -/
theorem c8_default_template_equivalence (env : Env) (url : String) :
    compositeOnTemplate env { aiGeneratedImageUrl := url, templateName := none } =
      compositeOnTemplate env { aiGeneratedImageUrl := url, templateName := some "template1" } ∧
    compositeOnTemplate env { aiGeneratedImageUrl := url, templateName := some "" } =
      compositeOnTemplate env { aiGeneratedImageUrl := url, templateName := some "template1" } := by
  constructor <;> rfl

/-- Constant opaque mid-grey pixel used by the concrete test images. -/
def grayPx : Pixel := { r := 1/2, g := 1/2, b := 1/2, a := 1 }

/-- Fully transparent pixel. -/
def clearPx : Pixel := { r := 0, g := 0, b := 0, a := 0 }

/-- A concrete 640×480 opaque grey source image. -/
def srcGray : Image := { width := 640, height := 480, pixel := fun _ _ => grayPx }

/-- Environment for the C3 counterexample: the template asset is absent
(`fs.access` fails) and the source fetch succeeds with a valid PNG. -/
def env3 : Env :=
  { access := fun _ => .error "ENOENT"
    fetch := fun _ => .ok (.valid { format := ImgFormat.png, image := srcGray })
    readFile := fun _ => .error "ENOENT"
    listDir := none }

/-- C3 counterexample: two names that are not keys of the Registry for
which `compositeOnTemplate` does not fail.  The empty string is treated as
absent by `options.templateName || 'template1'`, silently substituting the
default template.  The name `toString` reads a truthy inherited
`Object.prototype` member through `TEMPLATES[templateName]`, so the
`!templateConfig` guard does not fire; with the asset `toString.png` absent
the call runs the full fallback (access check, fetch, 1024×1024 resize) and
returns a success. -/
theorem c3_counterexample :
    TEMPLATES.lookup "" = none ∧
    (compositeOnTemplate env3
        { aiGeneratedImageUrl := "u", templateName := some "" }).1.error = none ∧
    (compositeOnTemplate env3
        { aiGeneratedImageUrl := "u", templateName := some "" }).1.base64Image ≠ none ∧
    TEMPLATES.lookup "toString" = none ∧
    (compositeOnTemplate env3
        { aiGeneratedImageUrl := "u", templateName := some "toString" }).1.error = none ∧
    (compositeOnTemplate env3
        { aiGeneratedImageUrl := "u", templateName := some "toString" }).1.base64Image ≠ none ∧
    (compositeOnTemplate env3
        { aiGeneratedImageUrl := "u", templateName := some "toString" }).2 =
      [Effect.accessCheck "toString", Effect.fetchUrl "u", Effect.resizeOp 1024 1024] := by
  refine ⟨rfl, rfl, ?_, rfl, rfl, ?_, rfl⟩ <;>
    exact fun h => Option.noConfusion h

/-- C3 (amended): for every NON-EMPTY `templateName` that is neither an own
key of the Registry nor the name of a property inherited from
`Object.prototype`, `compositeOnTemplate` fails immediately with the
non-empty message `Template <name> not found`, an empty payload, and an
empty effect trace — no default substitution, no fetch, no fallback
processing. -/
theorem c3_unknown_template_error (env : Env) (url name : String)
    (hne : name ≠ "") (hown : TEMPLATES.lookup name = none)
    (hproto : name ∉ protoNames) :
    compositeOnTemplate env { aiGeneratedImageUrl := url, templateName := some name } =
      ({ base64Image := none, error := some ("Template " ++ name ++ " not found") }, []) ∧
    ("Template " ++ name ++ " not found") ≠ "" := by
  have hreg : registryLookup name = JsProp.undef := by
    simp [registryLookup, hown, hproto]
  constructor
  · simp [compositeOnTemplate, compositeRun, defaultName, hne, hreg]
  · intro h
    have hlen := congrArg String.length h
    rw [String.length_append, String.length_append] at hlen
    have e1 : "Template ".length = 9 := rfl
    have e2 : " not found".length = 10 := rfl
    have e3 : "".length = 0 := rfl
    rw [e1, e2, e3] at hlen
    omega

/-- Witness for the amended C3 at the spec's own example name
`does-not-exist`. -/
theorem c3_unknown_template_error_witness :
    ("does-not-exist" ≠ "" ∧ TEMPLATES.lookup "does-not-exist" = none ∧
     "does-not-exist" ∉ protoNames) ∧
    (compositeOnTemplate env3
        { aiGeneratedImageUrl := "u", templateName := some "does-not-exist" } =
      ({ base64Image := none,
         error := some ("Template " ++ "does-not-exist" ++ " not found") }, []) ∧
     ("Template " ++ "does-not-exist" ++ " not found") ≠ "") :=
  ⟨⟨by decide, rfl, by decide⟩,
   c3_unknown_template_error env3 "u" "does-not-exist" (by decide) rfl (by decide)⟩

/-- C10 counterexample: the registry read does NOT fail for every name
other than the two entries — `TEMPLATES["toString"]` walks the prototype
chain to the truthy inherited `Object.prototype.toString`, so the
`!templateConfig` guard passes, and `compositeOnTemplate` with
`templateName = "toString"` returns a success (fallback) instead of the
`Template toString not found` failure. -/
theorem c10_counterexample :
    registryLookup "toString" = JsProp.inherited ∧
    ¬("toString" = "template1" ∨ "toString" = "template2") ∧
    (compositeOnTemplate env3
        { aiGeneratedImageUrl := "u", templateName := some "toString" }).1.error ≠
      some ("Template " ++ "toString" ++ " not found") ∧
    (compositeOnTemplate env3
        { aiGeneratedImageUrl := "u", templateName := some "toString" }).1.base64Image ≠
      none := by
  refine ⟨rfl, by decide, ?_, ?_⟩ <;> exact fun h => Option.noConfusion h

/-- Fallback behaviour of `compositeOnTemplate` at `(env, url, name)` for a
source buffer `buf`: the result is a success carrying the source image
cover-resized to the canonical 1024×1024 square (in the source's own input
format), the trace is access-check, fetch, resize; and the result is
unchanged when the storage accessor's failure message is replaced by any
other — the underlying I/O error never reaches the result. -/
def FallbackBehaviour (env : Env) (url name : String) (buf : Buffer) : Prop :=
  compositeOnTemplate env { aiGeneratedImageUrl := url, templateName := some name } =
    ({ base64Image := some { mime := "image/png"
                             payload := { format := buf.format
                                          image := resizeCoverCenter buf.image 1024 1024 } }
       error := none },
     [Effect.accessCheck name, Effect.fetchUrl url, Effect.resizeOp 1024 1024]) ∧
  ∀ e2 : String,
    compositeOnTemplate { env with access := fun _ => Except.error e2 }
        { aiGeneratedImageUrl := url, templateName := some name } =
      compositeOnTemplate env { aiGeneratedImageUrl := url, templateName := some name }

/-- C2: for every request whose (non-defaulted) template name has a
Registry entry, any failure of the template-asset existence probe sends
`compositeOnTemplate` down the fallback path: with a successful source
fetch it returns the 1024×1024-resized source as a success, and the
accessor's underlying I/O error message never influences the result. -/
theorem c2_storage_failure_fallback (env : Env) (url name e : String)
    (cfg : TemplateConfig) (buf : Buffer)
    (hlook : registryLookup name = JsProp.config cfg)
    (hacc : env.access name = Except.error e)
    (hfetch : env.fetch url = FetchOutcome.ok (Bytes.valid buf)) :
    FallbackBehaviour env url name buf := by
  have hne : name ≠ "" := by
    intro h
    rw [h] at hlook
    have h0 : registryLookup "" = JsProp.undef := by decide
    exact JsProp.noConfusion (h0.symm.trans hlook)
  constructor
  · simp [compositeOnTemplate, compositeRun, compositeRunTruthy, defaultName,
      hne, hlook, hacc, downloadImage, hfetch, fallbackPath, sharpResizeToBuffer]
  · intro e2
    simp [compositeOnTemplate, compositeRun, compositeRunTruthy, defaultName,
      hne, hlook, hacc, downloadImage, hfetch, fallbackPath, sharpResizeToBuffer]

/-- Environment for the C2 witness: every storage access fails with
`EACCES`, the source fetch succeeds with a valid JPEG. -/
def env2w : Env :=
  { access := fun _ => .error "EACCES"
    fetch := fun _ => .ok (.valid { format := ImgFormat.jpeg, image := srcGray })
    readFile := fun _ => .error "EACCES"
    listDir := none }

/-- Witness for C2: with `template1` registered, `fs.access` failing with
`EACCES`, and a good JPEG source, the fallback behaviour holds. -/
theorem c2_storage_failure_fallback_witness :
    (registryLookup "template1" =
        JsProp.config
          { name := "template1",
            facePosition := { x := 300, y := 150, width := 400, height := 400 } } ∧
     env2w.access "template1" = Except.error "EACCES" ∧
     env2w.fetch "u" =
       FetchOutcome.ok (Bytes.valid { format := ImgFormat.jpeg, image := srcGray })) ∧
    FallbackBehaviour env2w "u" "template1"
      { format := ImgFormat.jpeg, image := srcGray } :=
  ⟨⟨rfl, rfl, rfl⟩,
   c2_storage_failure_fallback env2w "u" "template1" "EACCES" _ _ rfl rfl rfl⟩

/-- A registered template name is never the empty string, since the Registry
read of `""` yields `undefined`. -/
lemma registered_name_ne_empty {name : String} {cfg : TemplateConfig}
    (h : registryLookup name = JsProp.config cfg) : name ≠ "" := by
  intro he
  rw [he] at h
  have h0 : registryLookup "" = JsProp.undef := by decide
  exact JsProp.noConfusion (h0.symm.trans h)

/-- Pixels strictly outside the overlay rectangle are untouched by the
composite. -/
lemma compositeOver_pixel_outside (base ov : Image) (L T i j : Nat)
    (h : i < L ∨ L + ov.width ≤ i ∨ j < T ∨ T + ov.height ≤ j) :
    (compositeOver base ov L T).pixel i j = base.pixel i j := by
  unfold compositeOver
  simp only
  rw [if_neg]
  rintro ⟨h1, h2, h3, h4⟩
  rcases h with h | h | h | h <;> omega

/-- Pixels inside the overlay rectangle are the source-over blend of the
overlay onto the base. -/
lemma compositeOver_pixel_inside (base ov : Image) (L T i j : Nat)
    (h1 : L ≤ i) (h2 : i < L + ov.width) (h3 : T ≤ j) (h4 : j < T + ov.height) :
    (compositeOver base ov L T).pixel i j =
      pixelOver (ov.pixel (i - L) (j - T)) (base.pixel i j) := by
  unfold compositeOver
  simp only
  rw [if_pos ⟨h1, h2, h3, h4⟩]

/-- Frame property of a successful composite at `(env, url, name)` with face
slot `p`, source buffer `srcBuf` and template buffer `tmplBuf`: the result
is a success, PNG-encoded, with exactly the template's dimensions; every
pixel strictly outside the face slot equals the original template's pixel;
every pixel inside the face slot is the source-over blend of the
cover-resized face onto the template. -/
def CompositeFrame (env : Env) (url name : String) (p : FacePosition)
    (srcBuf tmplBuf : Buffer) : Prop :=
  ∃ d : DataUri,
    (compositeOnTemplate env
        { aiGeneratedImageUrl := url, templateName := some name }).1 =
      { base64Image := some d, error := none } ∧
    d.mime = "image/png" ∧
    d.payload.format = ImgFormat.png ∧
    d.payload.image.width = tmplBuf.image.width ∧
    d.payload.image.height = tmplBuf.image.height ∧
    (∀ i j, (i < p.x ∨ p.x + p.width ≤ i ∨ j < p.y ∨ p.y + p.height ≤ j) →
      d.payload.image.pixel i j = tmplBuf.image.pixel i j) ∧
    (∀ i j, p.x ≤ i → i < p.x + p.width → p.y ≤ j → j < p.y + p.height →
      d.payload.image.pixel i j =
        pixelOver
          ((resizeCoverCenter srcBuf.image p.width p.height).pixel (i - p.x) (j - p.y))
          (tmplBuf.image.pixel i j))

/-- C4 (amended): when the template name resolves, the asset is present and
readable, the source fetch succeeds, and the face slot lies within the
template's bounds, the composite output is PNG-encoded with the template's
exact dimensions, pixels strictly outside the face slot are identical to the
template's, and pixels inside the face slot equal the source-over blend of
the cover-resized face onto the template (so they differ from the template
exactly where blending changes them). -/
theorem c4_composite_frame (env : Env) (url name : String) (cfg : TemplateConfig)
    (srcBuf tmplBuf : Buffer)
    (hlook : registryLookup name = JsProp.config cfg)
    (hacc : env.access name = Except.ok ())
    (hfetch : env.fetch url = FetchOutcome.ok (Bytes.valid srcBuf))
    (hread : env.readFile name = Except.ok (Bytes.valid tmplBuf))
    (_hbw : cfg.facePosition.x + cfg.facePosition.width ≤ tmplBuf.image.width)
    (_hbh : cfg.facePosition.y + cfg.facePosition.height ≤ tmplBuf.image.height) :
    CompositeFrame env url name cfg.facePosition srcBuf tmplBuf := by
  have hne : name ≠ "" := registered_name_ne_empty hlook
  refine ⟨{ mime := "image/png"
            payload := { format := ImgFormat.png
                         image := compositeOver tmplBuf.image
                           (resizeCoverCenter srcBuf.image
                             cfg.facePosition.width cfg.facePosition.height)
                           cfg.facePosition.x cfg.facePosition.y } },
          ?_, rfl, rfl, rfl, rfl, ?_, ?_⟩
  · simp [compositeOnTemplate, compositeRun, compositeRunTruthy, defaultName,
      hne, hlook, hacc, downloadImage, hfetch, compositePath,
      sharpResizeToBuffer, hread, sharpCompositePng]
  · intro i j h
    exact compositeOver_pixel_outside _ _ _ _ _ _ h
  · intro i j h1 h2 h3 h4
    exact compositeOver_pixel_inside _ _ _ _ _ _ h1 h2 h3 h4

/-- A concrete 1024×1024 fully opaque grey template image. -/
def tmplGray : Image := { width := 1024, height := 1024, pixel := fun _ _ => grayPx }

/-- A concrete 640×480 fully TRANSPARENT source image. -/
def srcClear : Image := { width := 640, height := 480, pixel := fun _ _ => clearPx }

/-- The transparent source as a PNG buffer. -/
def srcClearBuf : Buffer := { format := ImgFormat.png, image := srcClear }

/-- The grey template as a PNG buffer. -/
def tmplGrayBuf : Buffer := { format := ImgFormat.png, image := tmplGray }

/-- Environment for C4's concrete inputs: template asset present and
readable (the grey template), source fetch succeeds with the fully
transparent PNG. -/
def env4 : Env :=
  { access := fun _ => .ok ()
    fetch := fun _ => .ok (.valid srcClearBuf)
    readFile := fun _ => .ok (.valid tmplGrayBuf)
    listDir := none }

/-- Source-over blending a fully transparent pixel onto the opaque grey
pixel leaves the grey pixel unchanged. -/
lemma pixelOver_clear_gray : pixelOver clearPx grayPx = grayPx := by
  norm_num [pixelOver, clearPx, grayPx]

/-- C4 counterexample: with the template1 asset present and a fully
transparent source face, the composite succeeds with the template's exact
dimensions, but EVERY pixel of the output — including the whole face-slot
region `[300,700) × [150,550)` — is identical to the original template, so
the region inside the face slot does NOT differ as the claim requires. -/
theorem c4_counterexample :
    ∃ d : DataUri,
      (compositeOnTemplate env4
          { aiGeneratedImageUrl := "u", templateName := some "template1" }).1 =
        { base64Image := some d, error := none } ∧
      d.payload.image.width = tmplGray.width ∧
      d.payload.image.height = tmplGray.height ∧
      ∀ i j, d.payload.image.pixel i j = tmplGray.pixel i j := by
  refine ⟨{ mime := "image/png"
            payload := { format := ImgFormat.png
                         image := compositeOver tmplGray
                           (resizeCoverCenter srcClear 400 400) 300 150 } },
          rfl, rfl, rfl, ?_⟩
  intro i j
  show (compositeOver tmplGray (resizeCoverCenter srcClear 400 400) 300 150).pixel i j
        = tmplGray.pixel i j
  unfold compositeOver
  simp only
  split
  · exact pixelOver_clear_gray
  · rfl

/-- Witness for the amended C4 at the concrete environment `env4`. -/
theorem c4_composite_frame_witness :
    (registryLookup "template1" =
        JsProp.config
          { name := "template1",
            facePosition := { x := 300, y := 150, width := 400, height := 400 } } ∧
     env4.access "template1" = Except.ok () ∧
     env4.fetch "u" = FetchOutcome.ok (Bytes.valid srcClearBuf) ∧
     env4.readFile "template1" = Except.ok (Bytes.valid tmplGrayBuf) ∧
     300 + 400 ≤ 1024 ∧ 150 + 400 ≤ 1024) ∧
    CompositeFrame env4 "u" "template1"
      { x := 300, y := 150, width := 400, height := 400 } srcClearBuf tmplGrayBuf :=
  ⟨⟨rfl, rfl, rfl, rfl, by decide, by decide⟩,
   c4_composite_frame env4 "u" "template1" _ srcClearBuf tmplGrayBuf
     rfl rfl rfl rfl (by decide) (by decide)⟩

/-- Environment for C1's failing input: `template1` is registered but its
asset is absent (`fs.access` fails with `ENOENT`), and the source fetch
succeeds with a valid JPEG. -/
def env1 : Env :=
  { access := fun _ => .error "ENOENT"
    fetch := fun _ => .ok (.valid { format := ImgFormat.jpeg, image := srcGray })
    readFile := fun _ => .error "ENOENT"
    listDir := none }

/-- C1 at its failing input: with the `template1` asset absent and a JPEG
source, the fallback result is a success whose decoded image is exactly
1024×1024 and whose data URI says `image/png`, but whose payload is still
JPEG-encoded — the fallback branch never calls `.png()`, so sharp keeps the
input format, contradicting the claim's "PNG-encoded regardless of input
format". -/
theorem c1_fallback_keeps_input_format :
    ∃ d : DataUri,
      (compositeOnTemplate env1
          { aiGeneratedImageUrl := "u", templateName := some "template1" }).1 =
        { base64Image := some d, error := none } ∧
      d.mime = "image/png" ∧
      d.payload.image.width = 1024 ∧
      d.payload.image.height = 1024 ∧
      d.payload.format = ImgFormat.jpeg ∧
      d.payload.format ≠ ImgFormat.png :=
  ⟨{ mime := "image/png"
     payload := { format := ImgFormat.jpeg
                  image := resizeCoverCenter srcGray 1024 1024 } },
   rfl, rfl, rfl, rfl, rfl, by decide⟩

/-- A string with positive length is not the empty string. -/
lemma ne_empty_of_length_pos (s : String) (h : 0 < s.length) : s ≠ "" := by
  intro he
  rw [he] at h
  exact absurd h (by decide)

/-- The registry-miss message is never empty. -/
lemma template_msg_ne_empty (name : String) :
    ("Template " ++ name ++ " not found") ≠ "" := by
  apply ne_empty_of_length_pos
  rw [String.length_append, String.length_append]
  have e1 : "Template ".length = 9 := rfl
  have e2 : " not found".length = 10 := rfl
  rw [e1, e2]
  omega

/-- The non-ok-response message of `downloadImage` is never empty. -/
lemma download_msg_ne_empty (st : String) :
    ("Failed to download image: " ++ st) ≠ "" := by
  apply ne_empty_of_length_pos
  rw [String.length_append]
  have e1 : "Failed to download image: ".length = 26 := rfl
  rw [e1]
  omega

/-- All error messages an environment can inject into the pipeline are
non-empty: network-error messages, undecodable fetched bytes, template read
errors, and undecodable template bytes. -/
def EnvMsgsNonEmpty (env : Env) : Prop :=
  (∀ url m, env.fetch url = FetchOutcome.netError m → m ≠ "") ∧
  (∀ url m, env.fetch url = FetchOutcome.ok (Bytes.corrupt m) → m ≠ "") ∧
  (∀ n m, env.readFile n = Except.error m → m ≠ "") ∧
  (∀ n m, env.readFile n = Except.ok (Bytes.corrupt m) → m ≠ "")

/-- If `downloadImage` fails, the failure is either the prefixed non-ok
message or the network error's own message. -/
lemma downloadImage_error (env : Env) (url e : String)
    (h : downloadImage env url = Except.error e) :
    (∃ st, env.fetch url = FetchOutcome.httpError st ∧
        e = "Failed to download image: " ++ st) ∨
    env.fetch url = FetchOutcome.netError e := by
  unfold downloadImage at h
  cases hf : env.fetch url with
  | ok b => rw [hf] at h; exact absurd h (by simp)
  | httpError st => rw [hf] at h; left; exact ⟨st, rfl, by injection h with h2; rw [h2]⟩
  | netError m => rw [hf] at h; right; injection h with h2; rw [h2]

/-- If `downloadImage` succeeds, the fetch returned those bytes. -/
lemma downloadImage_ok (env : Env) (url : String) (b : Bytes)
    (h : downloadImage env url = Except.ok b) : env.fetch url = FetchOutcome.ok b := by
  unfold downloadImage at h
  cases hf : env.fetch url with
  | ok b2 => rw [hf] at h; injection h with h2; rw [h2]
  | httpError st => rw [hf] at h; exact absurd h (by simp)
  | netError m => rw [hf] at h; exact absurd h (by simp)

/-- The fallback branch only fails when the downloaded bytes are
undecodable, and then with exactly their message. -/
lemma fallbackPath_error (b : Bytes) (m : String)
    (h : (fallbackPath b).1 = Except.error m) : b = Bytes.corrupt m := by
  cases b with
  | valid buf => simp [fallbackPath, sharpResizeToBuffer] at h
  | corrupt c =>
    simp [fallbackPath, sharpResizeToBuffer] at h
    rw [h]

/-- The composite branch only fails with the downloaded bytes' decode
message, the template read error, or the template bytes' decode message. -/
lemma compositePath_error (env : Env) (name : String) (b : Bytes)
    (p : FacePosition) (m : String)
    (h : (compositePath env name b p).1 = Except.error m) :
    b = Bytes.corrupt m ∨ env.readFile name = Except.error m ∨
      env.readFile name = Except.ok (Bytes.corrupt m) := by
  cases b with
  | corrupt c =>
    left
    simp [compositePath, sharpResizeToBuffer] at h
    rw [h]
  | valid buf =>
    right
    unfold compositePath at h
    simp only [sharpResizeToBuffer] at h
    cases hr : env.readFile name with
    | error e =>
      rw [hr] at h
      simp at h
      left
      rw [h]
    | ok tb =>
      rw [hr] at h
      cases tb with
      | valid t => simp [sharpCompositePng] at h
      | corrupt c =>
        simp [sharpCompositePng] at h
        right
        rw [h]

/-- Any error produced by the truthy-registry pipeline is a download
failure, the destructuring TypeError (inherited member with an existing
asset), or a decode/read failure on the fetched bytes or the template. -/
lemma compositeRunTruthy_error (env : Env) (url name : String)
    (fp : Option FacePosition) (m : String)
    (h : (compositeRunTruthy env url name fp).1 = Except.error m) :
    downloadImage env url = Except.error m ∨
    m = destructureMsg ∨
    (∃ b, downloadImage env url = Except.ok b ∧
      (b = Bytes.corrupt m ∨ env.readFile name = Except.error m ∨
        env.readFile name = Except.ok (Bytes.corrupt m))) := by
  unfold compositeRunTruthy at h
  cases hd : downloadImage env url with
  | error e =>
    rw [hd] at h
    simp at h
    left
    rw [h]
  | ok b =>
    rw [hd] at h
    simp only at h
    cases ha : env.access name with
    | error e2 =>
      rw [ha] at h
      simp only [reduceIte] at h
      right; right
      exact ⟨b, rfl, Or.inl (fallbackPath_error b m h)⟩
    | ok u =>
      rw [ha] at h
      simp only [reduceIte] at h
      cases fp with
      | none =>
        simp at h
        right; left
        exact h.symm
      | some p =>
        right; right
        exact ⟨b, rfl, compositePath_error env name b p m h⟩

/-- Any error produced by `compositeRun` is the registry-miss message, a
download failure, the destructuring TypeError, or a decode/read failure on
the fetched bytes or the template. -/
lemma compositeRun_error (env : Env) (url name m : String)
    (h : (compositeRun env url name).1 = Except.error m) :
    m = ("Template " ++ name ++ " not found") ∨
    downloadImage env url = Except.error m ∨
    m = destructureMsg ∨
    (∃ b, downloadImage env url = Except.ok b ∧
      (b = Bytes.corrupt m ∨ env.readFile name = Except.error m ∨
        env.readFile name = Except.ok (Bytes.corrupt m))) := by
  unfold compositeRun at h
  cases hl : registryLookup name with
  | undef =>
    rw [hl] at h
    simp at h
    left
    rw [h]
  | inherited =>
    rw [hl] at h
    exact Or.inr (compositeRunTruthy_error env url name none m h)
  | config cfg =>
    rw [hl] at h
    exact Or.inr (compositeRunTruthy_error env url name (some cfg.facePosition) m h)

/-- C7 (amended): `compositeOnTemplate` is a total function of its inputs —
no exception crosses the boundary, by construction of the result type —
whose result is either a success with a payload and no error, or a failure
with an empty payload and an error message; and whenever the environment's
own failure messages are non-empty (registry-miss and HTTP-status messages
are non-empty unconditionally), every failure message is non-empty. -/
theorem c7_error_boundary (env : Env) (opts : CompositeOptions) :
    ((∃ d, (compositeOnTemplate env opts).1 =
        { base64Image := some d, error := none }) ∨
     (∃ m, (compositeOnTemplate env opts).1 =
        { base64Image := none, error := some m })) ∧
    (EnvMsgsNonEmpty env →
      ∀ m, (compositeOnTemplate env opts).1.error = some m → m ≠ "") := by
  constructor
  · unfold compositeOnTemplate
    cases hr : compositeRun env opts.aiGeneratedImageUrl (defaultName opts.templateName) with
    | mk r tr =>
      cases r with
      | ok d => left; exact ⟨d, rfl⟩
      | error m => right; exact ⟨m, rfl⟩
  · intro he m hm
    have hrun : (compositeRun env opts.aiGeneratedImageUrl
        (defaultName opts.templateName)).1 = Except.error m := by
      unfold compositeOnTemplate at hm
      cases hr : compositeRun env opts.aiGeneratedImageUrl (defaultName opts.templateName) with
      | mk r tr =>
        rw [hr] at hm
        cases r with
        | ok d => simp at hm
        | error m2 =>
          simp at hm
          rw [hm]
    rcases compositeRun_error env _ _ m hrun with h | h | h | ⟨b, hb, h⟩
    · rw [h]
      exact template_msg_ne_empty _
    · rcases downloadImage_error env _ m h with ⟨st, _, he2⟩ | hnet
      · rw [he2]
        exact download_msg_ne_empty st
      · exact he.1 _ m hnet
    · rw [h]
      decide
    · rcases h with h | h | h
      · have hfo := downloadImage_ok env _ b hb
        rw [h] at hfo
        exact he.2.1 _ m hfo
      · exact he.2.2.1 _ m h
      · exact he.2.2.2 _ m h

/-- Environment for the C7 counterexample: the source fetch rejects with an
EMPTY error message. -/
def env7 : Env :=
  { access := fun _ => .ok ()
    fetch := fun _ => .netError ""
    readFile := fun _ => .error ""
    listDir := none }

/-- C7 counterexample: a fetch rejection whose message is empty is passed
through verbatim, producing a failure result whose error message is the
EMPTY string — the claim's "non-empty human-readable message" fails. -/
theorem c7_counterexample :
    (compositeOnTemplate env7
        { aiGeneratedImageUrl := "u", templateName := none }).1 =
      { base64Image := none, error := some "" } := by
  rfl

/-- Environment for the C7 witness: the source fetch rejects with the
non-empty message `boom`. -/
def env7w : Env :=
  { access := fun _ => .ok ()
    fetch := fun _ => .netError "boom"
    readFile := fun _ => .error "io"
    listDir := none }

/-- Witness for the amended C7 at `env7w`. -/
theorem c7_error_boundary_witness :
    EnvMsgsNonEmpty env7w ∧
    (compositeOnTemplate env7w
        { aiGeneratedImageUrl := "u", templateName := none }).1.error = some "boom" ∧
    "boom" ≠ "" := by
  have he : EnvMsgsNonEmpty env7w := by
    refine ⟨?_, ?_, ?_, ?_⟩
    · intro url m h
      injection h with h2
      rw [← h2]
      decide
    · intro url m h
      exact FetchOutcome.noConfusion h
    · intro n m h
      injection h with h2
      rw [← h2]
      decide
    · intro n m h
      exact Except.noConfusion h
  exact ⟨he, rfl,
    (c7_error_boundary env7w { aiGeneratedImageUrl := "u", templateName := none }).2
      he "boom" rfl⟩

/-- Removing the first occurrence of `.png` from `l ++ ".png"` yields `l`,
provided no occurrence of `.png` starts before the final suffix (captured
by `.png` not occurring in `l ++ ".pn"`). -/
lemma stripFirstPat_append_pngPat (l : List Char)
    (h : containsPat pngPat (l ++ ['.', 'p', 'n']) = false) :
    stripFirstPat pngPat (l ++ pngPat) = l := by
  induction l with
  | nil => rfl
  | cons c t ih =>
    simp only [containsPat, List.cons_append, Bool.or_eq_false_iff] at h
    obtain ⟨h1, h2⟩ := h
    rw [decide_eq_false_iff_not] at h1
    have hk2 : List.take (3 - t.length) ['.', 'p', 'n'] = List.take (3 - t.length) pngPat := by
      have h3 : ['.', 'p', 'n'] = pngPat.take 3 := rfl
      rw [h3, List.take_take, Nat.min_eq_left (by omega)]
    have hkey : (c :: (t ++ pngPat)).take pngPat.length =
        (c :: (t ++ ['.', 'p', 'n'])).take pngPat.length := by
      show (c :: (t ++ pngPat)).take 4 = (c :: (t ++ ['.', 'p', 'n'])).take 4
      rw [List.take_succ_cons, List.take_succ_cons,
        List.take_append_eq_append_take, List.take_append_eq_append_take, hk2]
    show stripFirstPat pngPat (c :: (t ++ pngPat)) = c :: t
    unfold stripFirstPat
    rw [if_neg (by rw [hkey]; exact h1)]
    rw [ih h2]

/-- Suffix-stripping `.png` from `l ++ ".png"` yields `l`. -/
lemma stripSuffixPng_append (l : List Char) : stripSuffixPng (l ++ pngPat) = l := by
  have hlen : (l ++ pngPat).length = l.length + 4 := by
    rw [List.length_append]
    rfl
  have h44 : l.length + 4 - 4 = l.length := by omega
  have hdrop : (l ++ pngPat).drop ((l ++ pngPat).length - 4) = pngPat := by
    rw [hlen, h44, List.drop_left]
  unfold stripSuffixPng endsWithPng
  rw [hdrop, hlen, h44]
  simp [List.take_left]

/-- Environment for the C9 counterexample: the templates directory lists the
single file `a.pngb.png`. -/
def env9 : Env :=
  { access := fun _ => .error "ENOENT"
    fetch := fun _ => .httpError "x"
    readFile := fun _ => .error "ENOENT"
    listDir := some ["a.pngb.png"] }

/-- C9 counterexample: for the file `a.pngb.png`, JavaScript's
`replace('.png', '')` removes the FIRST occurrence, producing `ab.png`,
while stripping the `.png` suffix — as the claim states — would produce
`a.pngb`. -/
theorem c9_counterexample :
    getAvailableTemplates env9 = ["ab.png"] ∧
    (stripSuffixPng ("a.pngb.png".toList)).asString = "a.pngb" ∧
    "ab.png" ≠ "a.pngb" := by
  refine ⟨rfl, rfl, by decide⟩

/-- C9 (amended): `getAvailableTemplates` is total (it never fails): if the
directory listing is unavailable it returns the empty list, and otherwise it
returns the listed `.png` filenames each with the FIRST occurrence of
`.png` removed — which coincides with the claim's suffix-stripping exactly
for filenames in which `.png` occurs only as the final suffix. -/
theorem c9_available_templates (env : Env) :
    (env.listDir = none → getAvailableTemplates env = []) ∧
    (∀ files, env.listDir = some files →
      getAvailableTemplates env =
        (files.filter fun f => endsWithPng f.toList).map
          fun f => (stripFirstPat pngPat f.toList).asString) ∧
    (∀ l : List Char, containsPat pngPat (l ++ ['.', 'p', 'n']) = false →
      (stripFirstPat pngPat (l ++ pngPat)).asString =
        (stripSuffixPng (l ++ pngPat)).asString) := by
  refine ⟨?_, ?_, ?_⟩
  · intro h
    simp [getAvailableTemplates, h]
  · intro files h
    simp [getAvailableTemplates, h]
  · intro l h
    rw [stripFirstPat_append_pngPat l h, stripSuffixPng_append]

/-- Environment for the C9 witness: a directory holding one template asset
and one unrelated file. -/
def env9w : Env :=
  { access := fun _ => .ok ()
    fetch := fun _ => .httpError "x"
    readFile := fun _ => .error "ENOENT"
    listDir := some ["template1.png", "notes.txt"] }

/-- Environment for the C9 witness, directory unavailable. -/
def env9n : Env :=
  { access := fun _ => .error "ENOENT"
    fetch := fun _ => .httpError "x"
    readFile := fun _ => .error "ENOENT"
    listDir := none }

/-- Witness for the amended C9: an unavailable directory yields `[]`; a
listing of `template1.png` and `notes.txt` yields exactly `template1`; and
for `template1` the first-occurrence removal agrees with suffix-stripping. -/
theorem c9_available_templates_witness :
    getAvailableTemplates env9n = [] ∧
    getAvailableTemplates env9w =
      ((["template1.png", "notes.txt"].filter fun f => endsWithPng f.toList).map
        fun f => (stripFirstPat pngPat f.toList).asString) ∧
    getAvailableTemplates env9w = ["template1"] ∧
    (stripFirstPat pngPat ("template1".toList ++ pngPat)).asString =
      (stripSuffixPng ("template1".toList ++ pngPat)).asString :=
  ⟨(c9_available_templates env9n).1 rfl,
   (c9_available_templates env9w).2.1 ["template1.png", "notes.txt"] rfl,
   rfl,
   (c9_available_templates env9w).2.2 "template1".toList (by decide)⟩
